import Mathlib

/-!
Verification of the Kubernetes ReplicationController lifecycle resource
(`contrib/heat_kubernetes/heat_kubernetes/resources/kubernetes_rc.py`).

The file shallowly embeds the four lifecycle hooks of the
`KubernetesReplicationControllerResource` class — `handle_create`,
`check_create_complete`, `handle_delete`, `check_delete_complete` — together
with the helpers `_read_definition` and `_is_pod_running`, and proves the
specified properties about them.

Modelling decisions:
* The external `kubernetes` client is a record of pure response functions
  (`Client`).  Each reconciler function returns, next to its Python return
  value, the ordered list of client calls it performed (`List Call`), so
  that side-effect properties ("never calls Delete while members remain",
  "performs no Resize") are statable.
* A Python exception is an `Except.error`; `Except.ok` is a normal return.
  The client library's `KubernetesError` exception class covers the
  control-plane error conditions (not-found, transient/network, rejected
  submission); Python builtin exceptions (`IOError` from `open`/`read`,
  `AttributeError` from attribute access on `None`) are not subclasses of
  it, so an `except KubernetesError` clause does not catch them.
* `GetReplicationController` may return `None` (a falsy value, modelled
  `Except.ok none`) — the source's `if not rc: return True` branch in
  `check_delete_complete` exists precisely for that shape of response —
  or raise (`Except.error`).
* Python `None` identities are `Option.none`; the empty string is
  `some ""` and is distinct from `None` under `is None` checks, exactly as
  in the source.
-/

/-- Python exceptions that arise in the embedded code paths. -/
inductive Err where
  /-- Control plane does not know the referenced identity. -/
  | NotFoundError
  /-- Network / timeout / temporary control-plane unavailability. -/
  | TransientError
  /-- Control plane rejected the submitted definition. -/
  | SubmissionError
  /-- Python builtin raised by `open`/`read` on an unreadable source. -/
  | IOError
  /-- Python builtin raised by attribute access on `None`. -/
  | AttributeError
deriving DecidableEq, Repr

/-- Whether an `except KubernetesError` clause catches the exception.
The library's `KubernetesError` covers the control-plane conditions;
Python builtins are not its subclasses. -/
def isKubernetesError : Err → Bool
  | Err.NotFoundError => true
  | Err.TransientError => true
  | Err.SubmissionError => true
  | Err.IOError => false
  | Err.AttributeError => false

/-- Status of a member pod (`pod.Status`): only the `Phase` string is consumed. -/
structure PodStatus where
  Phase : String
deriving DecidableEq, Repr

/-- A member pod as returned in `pod_list.Items`. -/
structure Pod where
  Status : PodStatus
deriving DecidableEq, Repr

/-- Python `dict.get(key)`: first value bound to `key`, `None` when absent. -/
def dictGet (d : List (String × String)) (key : String) : Option String :=
  (d.find? (fun p => p.fst == key)).map Prod.snd

/-- The replication-controller status object read from the control plane:
`DesiredState` and `CurrentState` replica counts and the `Labels` dict. -/
structure ReplicationController where
  DesiredState : Nat
  CurrentState : Nat
  Labels : List (String × String)
deriving DecidableEq, Repr

/-- Result of `client.CreateReplicationController`: the assigned `Name`
and the generated `Labels`. -/
structure CreateResult where
  Name : String
  Labels : List (String × String)
deriving DecidableEq, Repr

/-- One outbound call to the kubernetes client, with its arguments
(`ns` is the namespace argument). -/
inductive Call where
  | GetReplicationController (name ns : String)
  | GetPods (ns : String) (selector : Option String)
  | ResizeReplicationController (name : String) (replicas : Nat) (ns : String)
  | DeleteReplicationController (name ns : String)
  | CreateReplicationController (ns : String)
deriving DecidableEq, Repr

/-- The kubernetes client as a record of pure response functions: what each
call returns (`Except.error` = the call raised).  `GetReplicationController`
may also return `None` (`Except.ok none`). -/
structure Client where
  GetReplicationController : String → String → Except Err (Option ReplicationController)
  GetPods : String → Option String → Except Err (List Pod)
  ResizeReplicationController : String → Nat → String → Except Err Unit
  DeleteReplicationController : String → String → Except Err Unit
  CreateReplicationController : Option String → String → Except Err CreateResult

/-- Outcome of opening and reading the definition file at a path:
`open` raises, `read` raises, or the content is obtained. -/
inductive ReadOutcome where
  | openFail
  | readFail
  | ok (content : String)
deriving DecidableEq, Repr

/-- Embeds `_read_definition(self, path)`.  `open(path)` runs before the
`try` block, so its failure propagates.  A failure of `file_obj.read()`
inside the `try` reaches the `finally` block, whose `return content`
statement swallows the in-flight exception and returns the still-`None`
`content`.  On success the content is returned. -/
def _read_definition (fs : String → ReadOutcome) (path : String) :
    Except Err (Option String) :=
  match fs path with
  | ReadOutcome.openFail => Except.error Err.IOError
  | ReadOutcome.readFail => Except.ok none
  | ReadOutcome.ok content => Except.ok (some content)

/-- Embeds `_is_pod_running(self, pod)`: `pod.Status.Phase == "Running"`. -/
def _is_pod_running (pod : Pod) : Bool :=
  pod.Status.Phase == "Running"

/-- Successful result of `handle_create`: the value returned to the engine,
the identity stored via `resource_id_set`, and `self.labels`. -/
structure CreateOutcome where
  returned : String
  stored_resource_id : Option String
  labels : List (String × String)
deriving DecidableEq, Repr

/-- Embeds `handle_create(self)`: read the definition at `definition_location`,
submit it with `CreateReplicationController`, store the returned name with
`resource_id_set`, set `self.labels`, and return the name. -/
def handle_create (c : Client) (fs : String → ReadOutcome)
    (definition_location ns : String) : Except Err CreateOutcome :=
  match _read_definition fs definition_location with
  | Except.error e => Except.error e
  | Except.ok content =>
    match c.CreateReplicationController content ns with
    | Except.error e => Except.error e
    | Except.ok result =>
      Except.ok { returned := result.Name
                  stored_resource_id := some result.Name
                  labels := result.Labels }

/-- Embeds `check_create_complete(self, rc_name)`: fetch the rc; not converged when
`DesiredState > CurrentState`; fetch the pods selected by
`rc.Labels.get('name')`; not converged when fewer pods than `DesiredState`;
not converged when some pod is not `Running`; otherwise converged.  A `None`
rc is not handled: `rc.DesiredState` raises `AttributeError`. -/
def check_create_complete (c : Client) (ns rc_name : String) :
    Except Err Bool × List Call :=
  match c.GetReplicationController rc_name ns with
  | Except.error e => (Except.error e, [Call.GetReplicationController rc_name ns])
  | Except.ok none =>
    (Except.error Err.AttributeError, [Call.GetReplicationController rc_name ns])
  | Except.ok (some rc) =>
    if rc.DesiredState > rc.CurrentState then
      (Except.ok false, [Call.GetReplicationController rc_name ns])
    else
      match c.GetPods ns (dictGet rc.Labels "name") with
      | Except.error e =>
        (Except.error e, [Call.GetReplicationController rc_name ns,
                          Call.GetPods ns (dictGet rc.Labels "name")])
      | Except.ok pods =>
        if pods.length < rc.DesiredState then
          (Except.ok false, [Call.GetReplicationController rc_name ns,
                             Call.GetPods ns (dictGet rc.Labels "name")])
        else
          (Except.ok (pods.all _is_pod_running),
           [Call.GetReplicationController rc_name ns,
            Call.GetPods ns (dictGet rc.Labels "name")])

/-- Embeds `handle_delete(self)`: bare `return` (i.e. `None`) when `resource_id`
is `None`; otherwise request a resize to 0 replicas, catching (and logging)
`KubernetesError`, and return the identity unchanged. -/
def handle_delete (c : Client) (ns : String) (resource_id : Option String) :
    Except Err (Option String) × List Call :=
  match resource_id with
  | none => (Except.ok none, [])
  | some rid =>
    match c.ResizeReplicationController rid 0 ns with
    | Except.ok _ =>
      (Except.ok (some rid), [Call.ResizeReplicationController rid 0 ns])
    | Except.error e =>
      if isKubernetesError e then
        (Except.ok (some rid), [Call.ResizeReplicationController rid 0 ns])
      else
        (Except.error e, [Call.ResizeReplicationController rid 0 ns])

/-- Embeds `check_delete_complete(self, rc_name)`: `True` when `rc_name is None`;
fetch the rc, `True` when it is falsy (already gone); list the pods selected
by `rc.Labels.get('name')`; when any remain, re-issue the resize to 0
(catching `KubernetesError`) and report `False`; when none remain, delete
the rc and report `True` (a `Delete` failure propagates). -/
def check_delete_complete (c : Client) (ns : String) (rc_name : Option String) :
    Except Err Bool × List Call :=
  match rc_name with
  | none => (Except.ok true, [])
  | some name =>
    match c.GetReplicationController name ns with
    | Except.error e => (Except.error e, [Call.GetReplicationController name ns])
    | Except.ok none => (Except.ok true, [Call.GetReplicationController name ns])
    | Except.ok (some rc) =>
      match c.GetPods ns (dictGet rc.Labels "name") with
      | Except.error e =>
        (Except.error e, [Call.GetReplicationController name ns,
                          Call.GetPods ns (dictGet rc.Labels "name")])
      | Except.ok pods =>
        if pods ≠ [] then
          match c.ResizeReplicationController name 0 ns with
          | Except.ok _ =>
            (Except.ok false, [Call.GetReplicationController name ns,
                               Call.GetPods ns (dictGet rc.Labels "name"),
                               Call.ResizeReplicationController name 0 ns])
          | Except.error e =>
            if isKubernetesError e then
              (Except.ok false, [Call.GetReplicationController name ns,
                                 Call.GetPods ns (dictGet rc.Labels "name"),
                                 Call.ResizeReplicationController name 0 ns])
            else
              (Except.error e, [Call.GetReplicationController name ns,
                                Call.GetPods ns (dictGet rc.Labels "name"),
                                Call.ResizeReplicationController name 0 ns])
        else
          match c.DeleteReplicationController name ns with
          | Except.ok _ =>
            (Except.ok true, [Call.GetReplicationController name ns,
                              Call.GetPods ns (dictGet rc.Labels "name"),
                              Call.DeleteReplicationController name ns])
          | Except.error e =>
            (Except.error e, [Call.GetReplicationController name ns,
                              Call.GetPods ns (dictGet rc.Labels "name"),
                              Call.DeleteReplicationController name ns])

/-! ## Reduction lemmas shared across the claim theorems -/

theorem check_create_complete_eval (c : Client) (ns rc_name : String)
    (rc : ReplicationController) (pods : List Pod)
    (hrc : c.GetReplicationController rc_name ns = Except.ok (some rc))
    (hpods : c.GetPods ns (dictGet rc.Labels "name") = Except.ok pods) :
    (check_create_complete c ns rc_name).fst =
      Except.ok (decide (rc.DesiredState ≤ rc.CurrentState) &&
        decide (rc.DesiredState ≤ pods.length) && pods.all _is_pod_running) := by
  unfold check_create_complete
  rw [hrc]
  dsimp only
  by_cases h1 : rc.CurrentState < rc.DesiredState
  · simp [h1, Nat.not_le.mpr h1, gt_iff_lt]
  · rw [if_neg (by omega), hpods]
    dsimp only
    by_cases h2 : pods.length < rc.DesiredState
    · simp [h2, Nat.not_le.mpr h2, Nat.not_lt.mp h1]
    · simp [h2, Nat.not_lt.mp h1, Nat.not_lt.mp h2]

/-! ## C1 -/

/-- C1: for every fetched workload status `rc` and member list `pods`,
`check_create_complete` returns `true` iff
`DesiredState ≤ CurrentState`, at least `DesiredState` pods are listed,
and every listed pod has phase `Running`; in particular when
`DesiredState > CurrentState` it returns `false`, and when some listed pod
is in a phase other than `Running` it returns `false`. -/
theorem c1_create_poll_convergence (c : Client) (ns rc_name : String)
    (rc : ReplicationController) (pods : List Pod)
    (hrc : c.GetReplicationController rc_name ns = Except.ok (some rc))
    (hpods : c.GetPods ns (dictGet rc.Labels "name") = Except.ok pods) :
    ((check_create_complete c ns rc_name).fst = Except.ok true ↔
      rc.DesiredState ≤ rc.CurrentState ∧ rc.DesiredState ≤ pods.length ∧
        ∀ p ∈ pods, _is_pod_running p = true) ∧
    (rc.CurrentState < rc.DesiredState →
      (check_create_complete c ns rc_name).fst = Except.ok false) ∧
    (∀ p ∈ pods, _is_pod_running p = false →
      (check_create_complete c ns rc_name).fst = Except.ok false) := by
  have heval := check_create_complete_eval c ns rc_name rc pods hrc hpods
  refine ⟨?_, ?_, ?_⟩
  · rw [heval]
    constructor
    · intro h
      have hb : (decide (rc.DesiredState ≤ rc.CurrentState) &&
          decide (rc.DesiredState ≤ pods.length) && pods.all _is_pod_running)
          = true := by
        exact Except.ok.inj h
      simp only [Bool.and_eq_true, decide_eq_true_eq, List.all_eq_true] at hb
      exact ⟨hb.1.1, hb.1.2, hb.2⟩
    · intro ⟨h1, h2, h3⟩
      simp only [h1, h2, decide_True, Bool.true_and, List.all_eq_true]
      exact congrArg Except.ok (by simpa [List.all_eq_true] using h3)
  · intro h
    rw [heval]
    simp [Nat.not_le.mpr h]
  · intro p hp hnp
    rw [heval]
    have : pods.all _is_pod_running = false := by
      rw [List.all_eq_false]
      exact ⟨p, hp, by simp [hnp]⟩
    simp [this]

/-- Witness for C1: the spec's scenario desired=3, current=3, two `Running`
pods and one `Pending` pod — `check_create_complete` reports `false`. -/
theorem c1_create_poll_convergence_witness :
    (check_create_complete
      { GetReplicationController := fun _ _ =>
          Except.ok (some ⟨3, 3, [("name", "app")]⟩)
        GetPods := fun _ _ =>
          Except.ok [⟨⟨"Running"⟩⟩, ⟨⟨"Running"⟩⟩, ⟨⟨"Pending"⟩⟩]
        ResizeReplicationController := fun _ _ _ => Except.error Err.TransientError
        DeleteReplicationController := fun _ _ => Except.error Err.TransientError
        CreateReplicationController := fun _ _ => Except.error Err.SubmissionError }
      "default" "rc-42").fst = Except.ok false := by
  exact (c1_create_poll_convergence _ "default" "rc-42" ⟨3, 3, [("name", "app")]⟩
    [⟨⟨"Running"⟩⟩, ⟨⟨"Running"⟩⟩, ⟨⟨"Pending"⟩⟩] rfl rfl).2.2
    ⟨⟨"Pending"⟩⟩ (by decide) (by decide)

/-! ## C2 -/

/-- C2 (code defect): an unreadable definition source does not always make
`handle_create` fail.  When `open` itself raises, the error propagates
(first two conjuncts).  But when `read` raises after a successful `open`,
the `return content` inside the `finally` block of `_read_definition`
swallows the exception and yields `None`; `handle_create` then proceeds to
submit the `None` body and reports success (last two conjuncts: the
submission below succeeds only on a `None` body, showing that is what was
submitted). -/
theorem c2_read_failure_swallowed :
    _read_definition (fun _ => ReadOutcome.openFail) "/etc/rc.json"
        = Except.error Err.IOError ∧
    handle_create
      { GetReplicationController := fun _ _ => Except.error Err.TransientError
        GetPods := fun _ _ => Except.error Err.TransientError
        ResizeReplicationController := fun _ _ _ => Except.error Err.TransientError
        DeleteReplicationController := fun _ _ => Except.error Err.TransientError
        CreateReplicationController := fun content _ =>
          if content = none then Except.ok ⟨"rc-1", [("name", "app")]⟩
          else Except.error Err.SubmissionError }
      (fun _ => ReadOutcome.openFail) "/etc/rc.json" "default"
        = Except.error Err.IOError ∧
    _read_definition (fun _ => ReadOutcome.readFail) "/etc/rc.json"
        = Except.ok none ∧
    handle_create
      { GetReplicationController := fun _ _ => Except.error Err.TransientError
        GetPods := fun _ _ => Except.error Err.TransientError
        ResizeReplicationController := fun _ _ _ => Except.error Err.TransientError
        DeleteReplicationController := fun _ _ => Except.error Err.TransientError
        CreateReplicationController := fun content _ =>
          if content = none then Except.ok ⟨"rc-1", [("name", "app")]⟩
          else Except.error Err.SubmissionError }
      (fun _ => ReadOutcome.readFail) "/etc/rc.json" "default"
        = Except.ok ⟨"rc-1", some "rc-1", [("name", "app")]⟩ := by
  refine ⟨rfl, rfl, rfl, ?_⟩
  rfl

/-! ## C9 -/

/-- C9: whenever `handle_create` returns successfully, the identity it
stored via `resource_id_set` is exactly the name it returns to the caller:
`stored_resource_id = some returned`. -/
theorem c9_stored_identity_eq_returned (c : Client) (fs : String → ReadOutcome)
    (definition_location ns : String) (out : CreateOutcome)
    (h : handle_create c fs definition_location ns = Except.ok out) :
    out.stored_resource_id = some out.returned := by
  unfold handle_create at h
  cases hr : _read_definition fs definition_location with
  | error e => rw [hr] at h; exact absurd h (by simp)
  | ok content =>
    rw [hr] at h
    dsimp only at h
    cases hc : c.CreateReplicationController content ns with
    | error e => rw [hc] at h; exact absurd h (by simp)
    | ok result =>
      rw [hc] at h
      rw [← Except.ok.inj h]

/-- Witness for C9: a concrete successful create stores exactly the name it
returns. -/
theorem c9_stored_identity_eq_returned_witness :
    (CreateOutcome.mk "rc-7" (some "rc-7") [("name", "app")]).stored_resource_id
      = some (CreateOutcome.mk "rc-7" (some "rc-7") [("name", "app")]).returned :=
  c9_stored_identity_eq_returned
    { GetReplicationController := fun _ _ => Except.error Err.TransientError
      GetPods := fun _ _ => Except.error Err.TransientError
      ResizeReplicationController := fun _ _ _ => Except.error Err.TransientError
      DeleteReplicationController := fun _ _ => Except.error Err.TransientError
      CreateReplicationController := fun _ _ =>
        Except.ok ⟨"rc-7", [("name", "app")]⟩ }
    (fun _ => ReadOutcome.ok "body") "/etc/rc.json" "default"
    (CreateOutcome.mk "rc-7" (some "rc-7") [("name", "app")]) rfl

/-! ## C4 -/

/-- A client each of whose calls raises `TransientError`. -/
def transientClient : Client where
  GetReplicationController := fun _ _ => Except.error Err.TransientError
  GetPods := fun _ _ => Except.error Err.TransientError
  ResizeReplicationController := fun _ _ _ => Except.error Err.TransientError
  DeleteReplicationController := fun _ _ => Except.error Err.TransientError
  CreateReplicationController := fun _ _ => Except.error Err.TransientError

/-- On a present identity, `handle_delete` performs exactly the one resize
call, whatever its outcome. -/
theorem handle_delete_some_trace (c : Client) (ns rid : String) :
    (handle_delete c ns (some rid)).snd = [Call.ResizeReplicationController rid 0 ns] := by
  unfold handle_delete
  dsimp only
  split
  · rfl
  · split <;> rfl

/-- C4: for every present identity, `handle_delete` issues the resize to 0
replicas, and when that resize raises a `KubernetesError` (the control-plane
error class) the exception is swallowed and the identity is still returned
unchanged. -/
theorem c4_begin_delete_swallows_resize_error (c : Client) (ns rid : String) :
    Call.ResizeReplicationController rid 0 ns ∈ (handle_delete c ns (some rid)).snd ∧
    (∀ e, c.ResizeReplicationController rid 0 ns = Except.error e →
      isKubernetesError e = true →
      (handle_delete c ns (some rid)).fst = Except.ok (some rid)) := by
  constructor
  · rw [handle_delete_some_trace]
    exact List.mem_singleton_self _
  · intro e he hk
    unfold handle_delete
    dsimp only
    rw [he]
    simp [hk]

/-- Witness for C4: the spec's scenario — `BeginDelete` on `"rc-42"` where
the resize raises `TransientError` still returns `"rc-42"`, having issued
the resize. -/
theorem c4_begin_delete_swallows_resize_error_witness :
    Call.ResizeReplicationController "rc-42" 0 "default"
        ∈ (handle_delete transientClient "default" (some "rc-42")).snd ∧
    (handle_delete transientClient "default" (some "rc-42")).fst
        = Except.ok (some "rc-42") := by
  have h := c4_begin_delete_swallows_resize_error transientClient "default" "rc-42"
  exact ⟨h.1, h.2 Err.TransientError rfl rfl⟩

/-! ## C10 -/

/-- The delete poll on a present identity always begins with the status
fetch: its trace starts with the `GetReplicationController` call. -/
theorem check_delete_complete_trace_starts_with_get (c : Client) (ns name : String) :
    ∃ rest, (check_delete_complete c ns (some name)).snd =
      Call.GetReplicationController name ns :: rest := by
  unfold check_delete_complete
  dsimp only
  repeat' split
  all_goals exact ⟨_, rfl⟩

/-- C10: only a `None` identity is treated as "nothing to delete".  For the
empty-string identity `""`, `handle_delete` still issues the resize and
`check_delete_complete` still fetches the workload, while for `None` both
make no client call at all. -/
theorem c10_empty_string_identity_is_acted_on (c : Client) (ns : String) :
    Call.ResizeReplicationController "" 0 ns ∈ (handle_delete c ns (some "")).snd ∧
    Call.GetReplicationController "" ns ∈ (check_delete_complete c ns (some "")).snd ∧
    (handle_delete c ns none).snd = [] ∧
    (check_delete_complete c ns none).snd = [] := by
  refine ⟨?_, ?_, rfl, rfl⟩
  · rw [handle_delete_some_trace]
    exact List.mem_singleton_self _
  · obtain ⟨rest, hrest⟩ := check_delete_complete_trace_starts_with_get c ns ""
    rw [hrest]
    exact List.mem_cons_self _ _

/-! ## Further reduction lemmas for the delete poll -/

/-- Delete poll when the status fetch raises: the exception propagates. -/
theorem check_delete_complete_rc_error (c : Client) (ns name : String) (e : Err)
    (h : c.GetReplicationController name ns = Except.error e) :
    check_delete_complete c ns (some name) =
      (Except.error e, [Call.GetReplicationController name ns]) := by
  unfold check_delete_complete
  dsimp only
  rw [h]

/-- Delete poll when the fetched rc is falsy (`None`): already gone. -/
theorem check_delete_complete_rc_falsy (c : Client) (ns name : String)
    (h : c.GetReplicationController name ns = Except.ok none) :
    check_delete_complete c ns (some name) =
      (Except.ok true, [Call.GetReplicationController name ns]) := by
  unfold check_delete_complete
  dsimp only
  rw [h]

/-- Delete poll with an existing rc and no members left: the final delete
call is made and decides the outcome. -/
theorem check_delete_complete_no_members (c : Client) (ns name : String)
    (rc : ReplicationController)
    (hrc : c.GetReplicationController name ns = Except.ok (some rc))
    (hpods : c.GetPods ns (dictGet rc.Labels "name") = Except.ok []) :
    check_delete_complete c ns (some name) =
      ((match c.DeleteReplicationController name ns with
        | Except.ok _ => Except.ok true
        | Except.error e => Except.error e),
       [Call.GetReplicationController name ns,
        Call.GetPods ns (dictGet rc.Labels "name"),
        Call.DeleteReplicationController name ns]) := by
  unfold check_delete_complete
  dsimp only
  rw [hrc]
  dsimp only
  rw [hpods]
  dsimp only
  rw [if_neg (by simp)]
  split <;> rfl

/-- Delete poll with an existing rc and members remaining: the resize nudge
is re-issued (a `KubernetesError` from it is swallowed) and the final delete
call is not reached. -/
theorem check_delete_complete_members_remain (c : Client) (ns name : String)
    (rc : ReplicationController) (p : Pod) (ps : List Pod)
    (hrc : c.GetReplicationController name ns = Except.ok (some rc))
    (hpods : c.GetPods ns (dictGet rc.Labels "name") = Except.ok (p :: ps)) :
    check_delete_complete c ns (some name) =
      ((match c.ResizeReplicationController name 0 ns with
        | Except.ok _ => Except.ok false
        | Except.error e =>
          if isKubernetesError e then Except.ok false else Except.error e),
       [Call.GetReplicationController name ns,
        Call.GetPods ns (dictGet rc.Labels "name"),
        Call.ResizeReplicationController name 0 ns]) := by
  unfold check_delete_complete
  dsimp only
  rw [hrc]
  dsimp only
  rw [hpods]
  dsimp only
  rw [if_pos (by simp)]
  split
  · rfl
  · split <;> rfl

/-! ## C5 -/

/-- C5: for every present identity whose workload exists with zero members
remaining, the delete poll performs the final delete call exactly once;
when that call succeeds the poll returns `true`, and when it raises, the
exception propagates unchanged (in particular the poll does not return
`true`). -/
theorem c5_final_delete_once_and_propagates (c : Client) (ns name : String)
    (rc : ReplicationController)
    (hrc : c.GetReplicationController name ns = Except.ok (some rc))
    (hpods : c.GetPods ns (dictGet rc.Labels "name") = Except.ok []) :
    (check_delete_complete c ns (some name)).snd.count
        (Call.DeleteReplicationController name ns) = 1 ∧
    (c.DeleteReplicationController name ns = Except.ok () →
      (check_delete_complete c ns (some name)).fst = Except.ok true) ∧
    (∀ e, c.DeleteReplicationController name ns = Except.error e →
      (check_delete_complete c ns (some name)).fst = Except.error e ∧
      (check_delete_complete c ns (some name)).fst ≠ Except.ok true) := by
  have h := check_delete_complete_no_members c ns name rc hrc hpods
  refine ⟨?_, ?_, ?_⟩
  · rw [h]
    simp [List.count_cons]
  · intro hdel
    rw [h]
    dsimp only
    rw [hdel]
  · intro e hdel
    rw [h]
    dsimp only
    rw [hdel]
    exact ⟨rfl, by simp⟩

/-- Witness for C5: the spec's scenario on `"rc-42"` with zero members —
a succeeding final delete yields `true`; a `TransientError` from the final
delete propagates, and in both cases the delete call appears exactly once. -/
theorem c5_final_delete_once_and_propagates_witness :
    ((check_delete_complete
        { transientClient with
          GetReplicationController := fun _ _ => Except.ok (some ⟨0, 0, []⟩)
          GetPods := fun _ _ => Except.ok []
          DeleteReplicationController := fun _ _ => Except.ok () }
        "default" (some "rc-42")).fst = Except.ok true) ∧
    ((check_delete_complete
        { transientClient with
          GetReplicationController := fun _ _ => Except.ok (some ⟨0, 0, []⟩)
          GetPods := fun _ _ => Except.ok [] }
        "default" (some "rc-42")).fst = Except.error Err.TransientError) ∧
    ((check_delete_complete
        { transientClient with
          GetReplicationController := fun _ _ => Except.ok (some ⟨0, 0, []⟩)
          GetPods := fun _ _ => Except.ok [] }
        "default" (some "rc-42")).snd.count
        (Call.DeleteReplicationController "rc-42" "default") = 1) := by
  have h1 := c5_final_delete_once_and_propagates
    { transientClient with
      GetReplicationController := fun _ _ => Except.ok (some ⟨0, 0, []⟩)
      GetPods := fun _ _ => Except.ok []
      DeleteReplicationController := fun _ _ => Except.ok () }
    "default" "rc-42" ⟨0, 0, []⟩ rfl rfl
  have h2 := c5_final_delete_once_and_propagates
    { transientClient with
      GetReplicationController := fun _ _ => Except.ok (some ⟨0, 0, []⟩)
      GetPods := fun _ _ => Except.ok [] }
    "default" "rc-42" ⟨0, 0, []⟩ rfl rfl
  exact ⟨h1.2.1 rfl, (h2.2.2 Err.TransientError rfl).1, h2.1⟩

/-! ## C6 -/

/-- C6: in every execution of the delete poll, the final delete call occurs
only when the member listing returned the empty list (never while one or
more members are reported); and whenever members remain, the resize-to-0
nudge is re-issued, a `KubernetesError` from it is swallowed, the poll
reports `false`, and no delete call is made. -/
theorem c6_delete_only_after_empty_listing (c : Client) (ns : String)
    (rid : Option String) :
    (∀ n m, Call.DeleteReplicationController n m ∈ (check_delete_complete c ns rid).snd →
      ∃ s rc, rid = some s ∧
        c.GetReplicationController s ns = Except.ok (some rc) ∧
        c.GetPods ns (dictGet rc.Labels "name") = Except.ok []) ∧
    (∀ s rc p ps, rid = some s →
      c.GetReplicationController s ns = Except.ok (some rc) →
      c.GetPods ns (dictGet rc.Labels "name") = Except.ok (p :: ps) →
      (c.ResizeReplicationController s 0 ns = Except.ok () ∨
        ∃ e, c.ResizeReplicationController s 0 ns = Except.error e ∧
          isKubernetesError e = true) →
      (check_delete_complete c ns rid).fst = Except.ok false ∧
      Call.ResizeReplicationController s 0 ns ∈ (check_delete_complete c ns rid).snd ∧
      ∀ n m, Call.DeleteReplicationController n m ∉ (check_delete_complete c ns rid).snd) := by
  constructor
  · intro n m hmem
    match rid with
    | none => simp [check_delete_complete] at hmem
    | some s =>
      unfold check_delete_complete at hmem
      dsimp only at hmem
      cases hg : c.GetReplicationController s ns with
      | error e => rw [hg] at hmem; simp at hmem
      | ok orc =>
        rw [hg] at hmem
        cases orc with
        | none => simp at hmem
        | some rc =>
          dsimp only at hmem
          cases hp : c.GetPods ns (dictGet rc.Labels "name") with
          | error e => rw [hp] at hmem; simp at hmem
          | ok pods =>
            rw [hp] at hmem
            dsimp only at hmem
            by_cases hne : pods = []
            · subst hne
              exact ⟨s, rc, rfl, hg, hp⟩
            · rw [if_pos hne] at hmem
              cases hr : c.ResizeReplicationController s 0 ns with
              | ok u => rw [hr] at hmem; simp at hmem
              | error e =>
                rw [hr] at hmem
                by_cases hk : isKubernetesError e <;> simp [hk] at hmem
  · intro s rc p ps hrid hg hp hres
    subst hrid
    have h := check_delete_complete_members_remain c ns s rc p ps hg hp
    rw [h]
    refine ⟨?_, by simp, by simp⟩
    rcases hres with hok | ⟨e, herr, hk⟩
    · dsimp only
      rw [hok]
    · dsimp only
      rw [herr]
      simp [hk]

/-- Witness for C6: one remaining `Pending` member and a resize that raises
`TransientError` — the poll reports `false`, the resize appears in the
trace, and no delete call is made. -/
theorem c6_delete_only_after_empty_listing_witness :
    ((check_delete_complete
        { transientClient with
          GetReplicationController := fun _ _ => Except.ok (some ⟨0, 0, []⟩)
          GetPods := fun _ _ => Except.ok [⟨⟨"Pending"⟩⟩] }
        "default" (some "rc-42")).fst = Except.ok false) ∧
    (Call.ResizeReplicationController "rc-42" 0 "default" ∈
      (check_delete_complete
        { transientClient with
          GetReplicationController := fun _ _ => Except.ok (some ⟨0, 0, []⟩)
          GetPods := fun _ _ => Except.ok [⟨⟨"Pending"⟩⟩] }
        "default" (some "rc-42")).snd) ∧
    (Call.DeleteReplicationController "rc-42" "default" ∉
      (check_delete_complete
        { transientClient with
          GetReplicationController := fun _ _ => Except.ok (some ⟨0, 0, []⟩)
          GetPods := fun _ _ => Except.ok [⟨⟨"Pending"⟩⟩] }
        "default" (some "rc-42")).snd) := by
  have h := (c6_delete_only_after_empty_listing
    { transientClient with
      GetReplicationController := fun _ _ => Except.ok (some ⟨0, 0, []⟩)
      GetPods := fun _ _ => Except.ok [⟨⟨"Pending"⟩⟩] }
    "default" (some "rc-42")).2 "rc-42" ⟨0, 0, []⟩ ⟨⟨"Pending"⟩⟩ [] rfl rfl rfl
    (Or.inr ⟨Err.TransientError, rfl, rfl⟩)
  exact ⟨h.1, h.2.1, h.2.2 "rc-42" "default"⟩

/-! ## C8 -/

/-- C8: the delete poll is idempotent on absent resources: with a `None`
identity, or with an identity whose workload the control plane reports as
already gone (a falsy status), it returns `true` and performs no resize and
no delete call. -/
theorem c8_delete_poll_idempotent_on_absent (c : Client) (ns : String)
    (rid : Option String)
    (h : rid = none ∨ ∃ s, rid = some s ∧
      c.GetReplicationController s ns = Except.ok none) :
    (check_delete_complete c ns rid).fst = Except.ok true ∧
    (∀ n r m, Call.ResizeReplicationController n r m ∉
      (check_delete_complete c ns rid).snd) ∧
    (∀ n m, Call.DeleteReplicationController n m ∉
      (check_delete_complete c ns rid).snd) := by
  rcases h with rfl | ⟨s, rfl, hg⟩
  · exact ⟨rfl, by intro n r m; simp [check_delete_complete],
      by intro n m; simp [check_delete_complete]⟩
  · rw [check_delete_complete_rc_falsy c ns s hg]
    exact ⟨rfl, by intro n r m; simp, by intro n m; simp⟩

/-- Witness for C8: both absent shapes — a `None` identity, and `"rc-42"`
already gone from the control plane — yield `true` with an empty
(state-changing) footprint. -/
theorem c8_delete_poll_idempotent_on_absent_witness :
    ((check_delete_complete transientClient "default" none).fst = Except.ok true) ∧
    ((check_delete_complete
        { transientClient with
          GetReplicationController := fun _ _ => Except.ok none }
        "default" (some "rc-42")).fst = Except.ok true) ∧
    (Call.DeleteReplicationController "rc-42" "default" ∉
      (check_delete_complete
        { transientClient with
          GetReplicationController := fun _ _ => Except.ok none }
        "default" (some "rc-42")).snd) := by
  have h1 := c8_delete_poll_idempotent_on_absent transientClient "default" none
    (Or.inl rfl)
  have h2 := c8_delete_poll_idempotent_on_absent
    { transientClient with
      GetReplicationController := fun _ _ => Except.ok none }
    "default" (some "rc-42") (Or.inr ⟨"rc-42", rfl, rfl⟩)
  exact ⟨h1.1, h2.1, h2.2.2 "rc-42" "default"⟩

/-! ## C3 -/

/-- Create poll when the status fetch raises: the exception propagates. -/
theorem check_create_complete_rc_error (c : Client) (ns name : String) (e : Err)
    (h : c.GetReplicationController name ns = Except.error e) :
    check_create_complete c ns name =
      (Except.error e, [Call.GetReplicationController name ns]) := by
  unfold check_create_complete
  rw [h]

/-- Create poll when the fetched rc is falsy (`None`): the unguarded
`rc.DesiredState` access raises `AttributeError`. -/
theorem check_create_complete_rc_falsy (c : Client) (ns name : String)
    (h : c.GetReplicationController name ns = Except.ok none) :
    check_create_complete c ns name =
      (Except.error Err.AttributeError, [Call.GetReplicationController name ns]) := by
  unfold check_create_complete
  rw [h]

/-- A client whose status fetch raises `NotFoundError` (other calls raise
`TransientError`). -/
def notFoundClient : Client :=
  { transientClient with
    GetReplicationController := fun _ _ => Except.error Err.NotFoundError }

/-- Counterexample to C3 as stated: when the status fetch raises
`NotFoundError`, `check_create_complete` does not return `false` — the
exception escapes to the caller — and `check_delete_complete` likewise
propagates it rather than returning `true`. -/
theorem c3_not_found_counterexample :
    ((check_create_complete notFoundClient "default" "rc-42").fst
        = Except.error Err.NotFoundError) ∧
    ((check_create_complete notFoundClient "default" "rc-42").fst
        ≠ Except.ok false) ∧
    ((check_delete_complete notFoundClient "default" (some "rc-42")).fst
        = Except.error Err.NotFoundError) ∧
    ((check_delete_complete notFoundClient "default" (some "rc-42")).fst
        ≠ Except.ok true) := by
  refine ⟨rfl, ?_, rfl, ?_⟩
  · rw [check_create_complete_rc_error notFoundClient "default" "rc-42" _ rfl]
    simp
  · rw [check_delete_complete_rc_error notFoundClient "default" "rc-42" _ rfl]
    simp

/-- C3 (amended): a raised `NotFoundError` from the status fetch propagates
out of both polls — neither converts it into a boolean, and in particular
neither reports convergence.  The "already satisfied" answer of the delete
poll arises only when the control plane reports the unknown identity by a
falsy (`None`) status instead of raising: then `check_delete_complete`
returns `true`, while `check_create_complete` still fails, with
`AttributeError` from the unguarded attribute access. -/
theorem c3_not_found_handling (cRaise cFalsy : Client) (ns name : String)
    (hr : cRaise.GetReplicationController name ns = Except.error Err.NotFoundError)
    (hf : cFalsy.GetReplicationController name ns = Except.ok none) :
    ((check_create_complete cRaise ns name).fst = Except.error Err.NotFoundError) ∧
    ((check_delete_complete cRaise ns (some name)).fst
        = Except.error Err.NotFoundError) ∧
    ((check_delete_complete cFalsy ns (some name)).fst = Except.ok true) ∧
    ((check_create_complete cFalsy ns name).fst = Except.error Err.AttributeError) := by
  rw [check_create_complete_rc_error cRaise ns name _ hr,
    check_delete_complete_rc_error cRaise ns name _ hr,
    check_delete_complete_rc_falsy cFalsy ns name hf,
    check_create_complete_rc_falsy cFalsy ns name hf]
  exact ⟨rfl, rfl, rfl, rfl⟩

/-- Witness for the amended C3 at concrete clients. -/
theorem c3_not_found_handling_witness :
    ((check_create_complete notFoundClient "default" "rc-42").fst
        = Except.error Err.NotFoundError) ∧
    ((check_delete_complete
        { transientClient with
          GetReplicationController := fun _ _ => Except.ok none }
        "default" (some "rc-42")).fst = Except.ok true) := by
  have h := c3_not_found_handling notFoundClient
    { transientClient with
      GetReplicationController := fun _ _ => Except.ok none }
    "default" "rc-42" rfl rfl
  exact ⟨h.1, h.2.2.1⟩

/-! ## C7 -/

/-- C7: a `TransientError` raised by the status fetch, or raised by every
possible member listing, never lets `check_create_complete` report
convergence: its boolean result is never `true` (the error propagates, or a
short-circuit `false` is returned first). -/
theorem c7_transient_error_never_converges (c : Client) (ns name : String)
    (h : c.GetReplicationController name ns = Except.error Err.TransientError ∨
      ∀ sel, c.GetPods ns sel = Except.error Err.TransientError) :
    (check_create_complete c ns name).fst ≠ Except.ok true := by
  rcases h with h | h
  · rw [check_create_complete_rc_error c ns name _ h]
    simp
  · unfold check_create_complete
    cases hg : c.GetReplicationController name ns with
    | error e => simp
    | ok orc =>
      cases orc with
      | none => simp
      | some rc =>
        dsimp only
        by_cases hd : rc.DesiredState > rc.CurrentState
        · rw [if_pos hd]
          simp
        · rw [if_neg hd, h (dictGet rc.Labels "name")]
          simp

/-- Witness for C7: a transient status fetch does not yield convergence. -/
theorem c7_transient_error_never_converges_witness :
    (check_create_complete transientClient "default" "rc-42").fst
      ≠ Except.ok true :=
  c7_transient_error_never_converges transientClient "default" "rc-42"
    (Or.inl rfl)
